import Mathlib

/-!
Verification of the client-side rendering pipeline of a 2D multiplayer
survival game. The development shallowly embeds the entity classifier
(src/utils/typeGuards.ts), the viewport culler and layer splitter
(src/client/src/hooks/useEntityFiltering.ts and
src/client/src/components/GameCanvas.tsx), the campfire particle engine
(src/client/src/hooks/useCampfireParticles.ts) and the player rendering
helpers (renderingUtils.ts, second half of
src/client/src/utils/renderers/tileRenderingUtils.ts).

Modelling conventions: JavaScript numbers are modelled as rationals;
an untyped replicated record is a structure of optional fields, where
presence of a field corresponds to the JS test
typeof e.f !== 'undefined', and a present field carries its natural
payload type (so typeof e.f === 'number' is also field presence).
Randomised particle attributes (position jitter, colour, lifetime) are
outside the embedded state; the engine is modelled by its deterministic
skeleton: accumulator values and per-tick emission counts per particle
type.
-/

namespace Survival

/-- An untyped replicated entity record, as seen by the duck-typed
classifier in typeGuards.ts. Every field is optional: `none` models a JS
`undefined` field, `some v` a present field of the expected type. -/
structure Entity where
  identity : Option String := none
  positionX : Option ℚ := none
  positionY : Option ℚ := none
  posX : Option ℚ := none
  posY : Option ℚ := none
  treeType : Option String := none
  health : Option ℚ := none
  placedBy : Option String := none
  itemDefId : Option ℕ := none
  isBurning : Option Bool := none
  id : Option ℕ := none
  slot_instance_id_0 : Option ℕ := none
  respawnAt : Option ℚ := none
  isDead : Option Bool := none
  isPlayerInHotZone : Option Bool := none
  direction : Option String := none
  jumpStartTimeMs : Option ℚ := none
deriving DecidableEq

/-- Type guard for Player (typeGuards.ts): identity present and
positionX a number. -/
def isPlayer (e : Entity) : Bool :=
  e.identity.isSome && e.positionX.isSome

/-- Type guard for Tree: treeType present and posX a number. -/
def isTree (e : Entity) : Bool :=
  e.treeType.isSome && e.posX.isSome

/-- Type guard for Stone: health a number, posX/posY numbers, and
identity, treeType, placedBy, itemDefId all absent. -/
def isStone (e : Entity) : Bool :=
  e.health.isSome && e.posX.isSome && e.posY.isSome &&
  e.identity.isNone && e.treeType.isNone &&
  e.placedBy.isNone && e.itemDefId.isNone

/-- Type guard for Campfire: placedBy present, posX/posY numbers,
isBurning a boolean. -/
def isCampfire (e : Entity) : Bool :=
  e.placedBy.isSome && e.posX.isSome && e.posY.isSome && e.isBurning.isSome

/-- Type guard for Mushroom: posX/posY numbers, id present, and
identity, treeType, health, placedBy, itemDefId all absent. -/
def isMushroom (e : Entity) : Bool :=
  e.posX.isSome && e.posY.isSome && e.id.isSome &&
  e.identity.isNone && e.treeType.isNone && e.health.isNone &&
  e.placedBy.isNone && e.itemDefId.isNone

/-- Type guard for Corn: structurally identical to the Mushroom guard. -/
def isCorn (e : Entity) : Bool :=
  e.posX.isSome && e.posY.isSome && e.id.isSome &&
  e.identity.isNone && e.treeType.isNone && e.health.isNone &&
  e.placedBy.isNone && e.itemDefId.isNone

/-- Type guard for WoodenStorageBox: posX/posY numbers, placedBy
present, isBurning absent. -/
def isWoodenStorageBox (e : Entity) : Bool :=
  e.posX.isSome && e.posY.isSome && e.placedBy.isSome && e.isBurning.isNone

/-- Type guard for DroppedItem: posX/posY numbers, itemDefId present,
and identity, treeType, health, placedBy all absent. -/
def isDroppedItem (e : Entity) : Bool :=
  e.posX.isSome && e.posY.isSome && e.itemDefId.isSome &&
  e.identity.isNone && e.treeType.isNone && e.health.isNone &&
  e.placedBy.isNone

/-- Type guard for SleepingBag: posX/posY numbers, placedBy present,
isBurning absent, and the first storage slot field absent. -/
def isSleepingBag (e : Entity) : Bool :=
  e.posX.isSome && e.posY.isSome && e.placedBy.isSome &&
  e.isBurning.isNone && e.slot_instance_id_0.isNone

/-- The results of the nine kind predicates on a record, in the order
Player, Tree, Stone, Campfire, Mushroom, Corn, DroppedItem,
WoodenStorageBox, SleepingBag. -/
def guardVector (e : Entity) : List Bool :=
  [isPlayer e, isTree e, isStone e, isCampfire e, isMushroom e,
   isCorn e, isDroppedItem e, isWoodenStorageBox e, isSleepingBag e]

/-- A well-formed Player record: identity-keyed, with positionX and
positionY coordinates. -/
def mkPlayer (ident : String) (x y : ℚ) (dead : Bool) (dir : String)
    (jump : ℚ) (hp : ℚ) : Entity :=
  { identity := some ident, positionX := some x, positionY := some y,
    isDead := some dead, direction := some dir,
    jumpStartTimeMs := some jump, health := some hp }

/-- A well-formed Tree record. -/
def mkTree (n : ℕ) (x y : ℚ) (kind : String) (hp : ℚ) : Entity :=
  { id := some n, posX := some x, posY := some y,
    treeType := some kind, health := some hp }

/-- A well-formed Stone record. -/
def mkStone (n : ℕ) (x y : ℚ) (hp : ℚ) : Entity :=
  { id := some n, posX := some x, posY := some y, health := some hp }

/-- A well-formed Campfire record. -/
def mkCampfire (n : ℕ) (x y : ℚ) (owner : String) (burning hot : Bool) :
    Entity :=
  { id := some n, posX := some x, posY := some y, placedBy := some owner,
    isBurning := some burning, isPlayerInHotZone := some hot }

/-- A well-formed Mushroom record; `resp` is the optional pending
respawn timestamp. -/
def mkMushroom (n : ℕ) (x y : ℚ) (resp : Option ℚ) : Entity :=
  { id := some n, posX := some x, posY := some y, respawnAt := resp }

/-- A well-formed Corn record, structurally identical to a Mushroom. -/
def mkCorn (n : ℕ) (x y : ℚ) (resp : Option ℚ) : Entity :=
  { id := some n, posX := some x, posY := some y, respawnAt := resp }

/-- A well-formed DroppedItem record. -/
def mkDroppedItem (n : ℕ) (x y : ℚ) (defId : ℕ) : Entity :=
  { id := some n, posX := some x, posY := some y, itemDefId := some defId }

/-- A well-formed WoodenStorageBox record; it carries its first
inventory slot field. -/
def mkWoodenStorageBox (n : ℕ) (x y : ℚ) (owner : String) (slot0 : ℕ) :
    Entity :=
  { id := some n, posX := some x, posY := some y, placedBy := some owner,
    slot_instance_id_0 := some slot0 }

/-- A well-formed SleepingBag record: placed like a box but with no
inventory slot fields. -/
def mkSleepingBag (n : ℕ) (x y : ℚ) (owner : String) : Entity :=
  { id := some n, posX := some x, posY := some y, placedBy := some owner }

/-- Viewport bounds in world coordinates (useEntityFiltering.ts /
GameCanvas.tsx). -/
structure ViewportBounds where
  viewMinX : ℚ
  viewMaxX : ℚ
  viewMinY : ℚ
  viewMaxY : ℚ
deriving DecidableEq

/-- The tile size from gameConfig.ts. -/
def tileSize : ℚ := 48

/-- Viewport bounds derived from the camera offset and canvas size with
a two-tile buffer (getViewportBounds in useEntityFiltering.ts). -/
def getViewportBounds (cameraOffsetX cameraOffsetY canvasWidth canvasHeight : ℚ) :
    ViewportBounds :=
  let buffer := tileSize * 2
  { viewMinX := -cameraOffsetX - buffer
    viewMaxX := -cameraOffsetX + canvasWidth + buffer
    viewMinY := -cameraOffsetY - buffer
    viewMaxY := -cameraOffsetY + canvasHeight + buffer }

/-- Position and approximate box size resolved by the guard chain of
isEntityInView in useEntityFiltering.ts, in its branch order: Player,
Tree, Stone, Campfire, Mushroom, DroppedItem, WoodenStorageBox,
SleepingBag, Corn. `none` is the unknown-entity fallthrough. -/
def resolveView (e : Entity) : Option (Option ℚ × Option ℚ × ℚ × ℚ) :=
  if isPlayer e then some (e.positionX, e.positionY, 64, 64)
  else if isTree e then some (e.posX, e.posY, 96, 128)
  else if isStone e then some (e.posX, e.posY, 64, 64)
  else if isCampfire e then some (e.posX, e.posY, 64, 64)
  else if isMushroom e then some (e.posX, e.posY, 32, 32)
  else if isDroppedItem e then some (e.posX, e.posY, 32, 32)
  else if isWoodenStorageBox e then some (e.posX, e.posY, 64, 64)
  else if isSleepingBag e then some (e.posX, e.posY, 64, 32)
  else if isCorn e then some (e.posX, e.posY, 32, 48)
  else none

/-- The strict AABB overlap test of isEntityInView: entity box edges
versus the bounds rectangle, strict inequalities on both axes. -/
def aabbOverlap (x y w h : ℚ) (b : ViewportBounds) : Bool :=
  decide (x + w / 2 > b.viewMinX) && decide (x - w / 2 < b.viewMaxX) &&
  decide (y + h / 2 > b.viewMinY) && decide (y - h / 2 < b.viewMaxY)

/-- isEntityInView from useEntityFiltering.ts: resolve the kind branch,
bail out on unknown kinds or missing coordinates, then run the strict
AABB overlap test. -/
def isEntityInView (e : Entity) (b : ViewportBounds) : Bool :=
  match resolveView e with
  | none => false
  | some (ox, oy, w, h) =>
    match ox, oy with
    | some x, some y => aabbOverlap x y w h b
    | _, _ => false

/-- Branch resolution of the isEntityInView copy in GameCanvas.tsx: same
chain except Corn is tested right after Mushroom and there is no
SleepingBag branch. -/
def resolveViewGC (e : Entity) : Option (Option ℚ × Option ℚ × ℚ × ℚ) :=
  if isPlayer e then some (e.positionX, e.positionY, 64, 64)
  else if isTree e then some (e.posX, e.posY, 96, 128)
  else if isStone e then some (e.posX, e.posY, 64, 64)
  else if isCampfire e then some (e.posX, e.posY, 64, 64)
  else if isMushroom e then some (e.posX, e.posY, 32, 32)
  else if isCorn e then some (e.posX, e.posY, 32, 48)
  else if isDroppedItem e then some (e.posX, e.posY, 32, 32)
  else if isWoodenStorageBox e then some (e.posX, e.posY, 64, 64)
  else none

/-- The isEntityInView copy defined inside GameCanvas.tsx. -/
def isEntityInViewGC (e : Entity) (b : ViewportBounds) : Bool :=
  match resolveViewGC e with
  | none => false
  | some (ox, oy, w, h) =>
    match ox, oy with
    | some x, some y => aabbOverlap x y w h b
    | _, _ => false

/-- Visible mushrooms (useEntityFiltering.ts): no pending respawn
timestamp and in view. -/
def visibleMushroomsHook (mushrooms : List Entity) (b : ViewportBounds) :
    List Entity :=
  mushrooms.filter fun e => e.respawnAt.isNone && isEntityInView e b

/-- Visible corn (useEntityFiltering.ts). -/
def visibleCornsHook (corns : List Entity) (b : ViewportBounds) : List Entity :=
  corns.filter fun e => e.respawnAt.isNone && isEntityInView e b

/-- Visible dropped items (useEntityFiltering.ts). -/
def visibleDroppedItemsHook (droppedItems : List Entity) (b : ViewportBounds) :
    List Entity :=
  droppedItems.filter fun e => isEntityInView e b

/-- Visible campfires (useEntityFiltering.ts). -/
def visibleCampfiresHook (campfires : List Entity) (b : ViewportBounds) :
    List Entity :=
  campfires.filter fun e => isEntityInView e b

/-- Visible players (useEntityFiltering.ts): no liveness filter in the
hook version. -/
def visiblePlayersHook (players : List Entity) (b : ViewportBounds) :
    List Entity :=
  players.filter fun e => isEntityInView e b

/-- Visible trees (useEntityFiltering.ts): health above zero and in
view. A missing health field reads as 0 in the comparison. -/
def visibleTreesHook (trees : List Entity) (b : ViewportBounds) : List Entity :=
  trees.filter fun e => decide (0 < e.health.getD 0) && isEntityInView e b

/-- Visible stones (useEntityFiltering.ts): health above zero and in
view. -/
def visibleStonesHook (stones : List Entity) (b : ViewportBounds) : List Entity :=
  stones.filter fun e => decide (0 < e.health.getD 0) && isEntityInView e b

/-- Visible wooden storage boxes (useEntityFiltering.ts). -/
def visibleWoodenStorageBoxesHook (boxes : List Entity) (b : ViewportBounds) :
    List Entity :=
  boxes.filter fun e => isEntityInView e b

/-- Visible sleeping bags (useEntityFiltering.ts). -/
def visibleSleepingBagsHook (bags : List Entity) (b : ViewportBounds) :
    List Entity :=
  bags.filter fun e => isEntityInView e b

/-- The ground-layer paint group built by useEntityFiltering.ts: the
concatenation of visible dropped items, campfires and sleeping bags (in
that spread order). -/
def groundItemsHook (droppedItems campfires bags : List Entity)
    (b : ViewportBounds) : List Entity :=
  visibleDroppedItemsHook droppedItems b ++ visibleCampfiresHook campfires b ++
    visibleSleepingBagsHook bags b

/-- Visible players in GameCanvas.tsx: dead players are filtered out in
addition to the view test. A missing isDead field reads as false. -/
def visiblePlayersGC (players : List Entity) (b : ViewportBounds) :
    List Entity :=
  players.filter fun p => !(p.isDead.getD false) && isEntityInViewGC p b

/-- Visible mushrooms in GameCanvas.tsx (the __entityType tag attached
there does not change membership). -/
def visibleMushroomsGC (mushrooms : List Entity) (b : ViewportBounds) :
    List Entity :=
  mushrooms.filter fun e => e.respawnAt.isNone && isEntityInViewGC e b

/-- Visible corn in GameCanvas.tsx. -/
def visibleCornsGC (corns : List Entity) (b : ViewportBounds) : List Entity :=
  corns.filter fun e => e.respawnAt.isNone && isEntityInViewGC e b

/-- Visible dropped items in GameCanvas.tsx. -/
def visibleDroppedItemsGC (droppedItems : List Entity) (b : ViewportBounds) :
    List Entity :=
  droppedItems.filter fun e => isEntityInViewGC e b

/-- Visible campfires in GameCanvas.tsx. -/
def visibleCampfiresGC (campfires : List Entity) (b : ViewportBounds) :
    List Entity :=
  campfires.filter fun e => isEntityInViewGC e b

/-- Visible trees in GameCanvas.tsx. -/
def visibleTreesGC (trees : List Entity) (b : ViewportBounds) : List Entity :=
  trees.filter fun e => decide (0 < e.health.getD 0) && isEntityInViewGC e b

/-- Visible stones in GameCanvas.tsx. -/
def visibleStonesGC (stones : List Entity) (b : ViewportBounds) : List Entity :=
  stones.filter fun e => decide (0 < e.health.getD 0) && isEntityInViewGC e b

/-- Visible wooden storage boxes in GameCanvas.tsx. -/
def visibleWoodenStorageBoxesGC (boxes : List Entity) (b : ViewportBounds) :
    List Entity :=
  boxes.filter fun e => isEntityInViewGC e b

/-- The ground-layer paint group built by GameCanvas.tsx: visible
mushrooms, corn, dropped items and campfires, in that spread order. -/
def groundItemsGC (mushrooms corns droppedItems campfires : List Entity)
    (b : ViewportBounds) : List Entity :=
  visibleMushroomsGC mushrooms b ++ visibleCornsGC corns b ++
    visibleDroppedItemsGC droppedItems b ++ visibleCampfiresGC campfires b

/-- The kind-polymorphic depth key used by the Y-sort comparator:
positionY for records matching the Player guard, posY for the rest. -/
def yKey (e : Entity) : ℚ :=
  if isPlayer e then e.positionY.getD 0 else e.posY.getD 0

/-- Insert an element into a list, before the first element whose key is
not smaller. This is the stable-insert step realising the ECMAScript
stable Array.sort with the comparator yA - yB. -/
def insertY (e : Entity) : List Entity → List Entity
  | [] => [e]
  | x :: xs => if yKey x < yKey e then x :: insertY e xs else e :: x :: xs

/-- Stable sort by ascending yKey, modelling the ECMAScript-stable
entities.sort((a, b) => yA - yB) call. -/
def sortByY : List Entity → List Entity
  | [] => []
  | x :: xs => insertY x (sortByY xs)

/-- The Y-sorted paint group of useEntityFiltering.ts: visible players,
trees, stones (with a second health filter) and boxes, stably sorted by
the polymorphic Y key. -/
def ySortedEntitiesHook (players trees stones boxes : List Entity)
    (b : ViewportBounds) : List Entity :=
  sortByY
    (visiblePlayersHook players b ++ visibleTreesHook trees b ++
      (visibleStonesHook stones b).filter (fun e => decide (0 < e.health.getD 0)) ++
      visibleWoodenStorageBoxesHook boxes b)

/-- The Y-sorted paint group of GameCanvas.tsx: visible (alive) players,
trees, stones and boxes, stably sorted by the polymorphic Y key. -/
def ySortedEntitiesGC (players trees stones boxes : List Entity)
    (b : ViewportBounds) : List Entity :=
  sortByY
    (visiblePlayersGC players b ++ visibleTreesGC trees b ++
      visibleStonesGC stones b ++ visibleWoodenStorageBoxesGC boxes b)

theorem mem_insertY {a e : Entity} {l : List Entity} :
    a ∈ insertY e l ↔ a = e ∨ a ∈ l := by
  induction l with
  | nil => simp [insertY]
  | cons x xs ih =>
    by_cases h : yKey x < yKey e
    · simp [insertY, h, ih]
      tauto
    · simp [insertY, h]

theorem mem_sortByY {a : Entity} {l : List Entity} :
    a ∈ sortByY l ↔ a ∈ l := by
  induction l with
  | nil => simp [sortByY]
  | cons x xs ih => simp [sortByY, mem_insertY, ih]

theorem pairwise_insertY {e : Entity} {l : List Entity}
    (h : l.Pairwise (fun a b => yKey a ≤ yKey b)) :
    (insertY e l).Pairwise (fun a b => yKey a ≤ yKey b) := by
  induction l with
  | nil => simp [insertY]
  | cons x xs ih =>
    rcases List.pairwise_cons.mp h with ⟨hx, hxs⟩
    by_cases hlt : yKey x < yKey e
    · rw [insertY, if_pos hlt]
      refine List.pairwise_cons.mpr ⟨?_, ih hxs⟩
      intro a ha
      rcases mem_insertY.mp ha with rfl | ha
      · exact le_of_lt hlt
      · exact hx a ha
    · rw [insertY, if_neg hlt]
      refine List.pairwise_cons.mpr ⟨?_, h⟩
      intro a ha
      rcases List.mem_cons.mp ha with rfl | ha
      · exact le_of_not_lt hlt
      · exact le_trans (le_of_not_lt hlt) (hx a ha)

theorem pairwise_sortByY (l : List Entity) :
    (sortByY l).Pairwise (fun a b => yKey a ≤ yKey b) := by
  induction l with
  | nil => simp [sortByY]
  | cons x xs ih => exact pairwise_insertY ih

theorem filter_insertY_eq {e : Entity} {l : List Entity} {k : ℚ}
    (h : yKey e = k) :
    (insertY e l).filter (fun a => decide (yKey a = k)) =
      e :: l.filter (fun a => decide (yKey a = k)) := by
  induction l with
  | nil => simp [insertY, List.filter, h]
  | cons x xs ih =>
    by_cases hlt : yKey x < yKey e
    · have hxk : ¬ yKey x = k := by
        intro hk
        rw [h, ← hk] at hlt
        exact lt_irrefl _ hlt
      rw [insertY, if_pos hlt]
      simp [List.filter, hxk, ih]
    · rw [insertY, if_neg hlt]
      simp [List.filter, h]

theorem filter_insertY_ne {e : Entity} {l : List Entity} {k : ℚ}
    (h : ¬ yKey e = k) :
    (insertY e l).filter (fun a => decide (yKey a = k)) =
      l.filter (fun a => decide (yKey a = k)) := by
  induction l with
  | nil => simp [insertY, List.filter, h]
  | cons x xs ih =>
    by_cases hlt : yKey x < yKey e
    · rw [insertY, if_pos hlt]
      by_cases hxk : yKey x = k <;> simp [List.filter, hxk, ih]
    · rw [insertY, if_neg hlt]
      by_cases hxk : yKey x = k <;> simp [List.filter, hxk, h]

/-- Stability of the modelled sort: for every key value, the sort does
not change the relative order of the elements carrying that key. -/
theorem sortByY_stable (l : List Entity) (k : ℚ) :
    (sortByY l).filter (fun a => decide (yKey a = k)) =
      l.filter (fun a => decide (yKey a = k)) := by
  induction l with
  | nil => simp [sortByY]
  | cons x xs ih =>
    by_cases hx : yKey x = k
    · rw [sortByY, filter_insertY_eq hx, ih]
      simp [List.filter, hx]
    · rw [sortByY, filter_insertY_ne hx, ih]
      simp [List.filter, hx]

theorem insertY_of_le {e : Entity} {l : List Entity}
    (h : ∀ a ∈ l, yKey e ≤ yKey a) : insertY e l = e :: l := by
  cases l with
  | nil => rfl
  | cons x xs =>
    rw [insertY, if_neg]
    exact not_lt_of_le (h x (List.mem_cons_self x xs))

theorem sortByY_of_pairwise {l : List Entity}
    (h : l.Pairwise (fun a b => yKey a ≤ yKey b)) : sortByY l = l := by
  induction l with
  | nil => rfl
  | cons x xs ih =>
    rcases List.pairwise_cons.mp h with ⟨hx, hxs⟩
    rw [sortByY, ih hxs, insertY_of_le hx]

/-- Idempotence of the modelled sort: re-sorting an already sorted list
returns it unchanged, so repeated invocations produce identical
orderings. -/
theorem sortByY_idem (l : List Entity) : sortByY (sortByY l) = sortByY l :=
  sortByY_of_pairwise (pairwise_sortByY l)

/-- One millisecond-to-frame normalisation constant: deltaTime is
divided by 16.667 to normalise to 60fps (useCampfireParticles.ts). -/
def frameMs : ℚ := 16667 / 1000

/-- The smoke emission rate SMOKE_PARTICLES_PER_CAMPFIRE_FRAME = 0.3. -/
def smokeRate : ℚ := 3 / 10

/-- The fire emission rates of the three zones (top, middle, base). -/
def fireRateTop : ℚ := 2 / 5

/-- Middle fire zone emission rate. -/
def fireRateMiddle : ℚ := 3 / 10

/-- Base fire zone emission rate. -/
def fireRateBase : ℚ := 3 / 20

/-- The smoke-burst emission rate added per normalised frame. -/
def burstRate : ℚ := 4

/-- SMOKE_LINGER_DURATION_MS = 4000. -/
def smokeLingerDurationMs : ℚ := 4000

/-- The emission while-loop of useCampfireParticles.ts: while the
accumulator is at least 1, subtract 1 and emit one particle. Returns the
remaining accumulator and the number of particles emitted. -/
def drain (acc : ℚ) : ℚ × ℕ :=
  if h : 1 ≤ acc then
    let r := drain (acc - 1)
    (r.1, r.2 + 1)
  else (acc, 0)
termination_by (Int.ceil acc).toNat
decreasing_by
  have h1 : (1 : ℤ) ≤ Int.ceil acc := by
    have := Int.le_ceil acc
    have : (1 : ℚ) ≤ (Int.ceil acc : ℚ) := le_trans h this
    exact_mod_cast this
  have h2 : Int.ceil (acc - 1) = Int.ceil acc - 1 := by
    exact_mod_cast Int.ceil_sub_int acc 1
  omega

theorem drain_spec (acc : ℚ) (h : 0 ≤ acc) :
    ((drain acc).2 : ℚ) + (drain acc).1 = acc ∧
      0 ≤ (drain acc).1 ∧ (drain acc).1 < 1 := by
  by_cases h1 : 1 ≤ acc
  · have ih := drain_spec (acc - 1) (by linarith)
    rw [drain, dif_pos h1]
    refine ⟨?_, ih.2.1, ih.2.2⟩
    push_cast
    have := ih.1
    linarith
  · rw [drain, dif_neg h1]
    exact ⟨by simp, h, lt_of_not_le h1⟩
termination_by (Int.ceil acc).toNat
decreasing_by
  have hle : (1 : ℚ) ≤ acc := h1
  have hz : (1 : ℤ) ≤ Int.ceil acc := by
    have := Int.le_ceil acc
    have : (1 : ℚ) ≤ (Int.ceil acc : ℚ) := le_trans hle this
    exact_mod_cast this
  have h2 : Int.ceil (acc - 1) = Int.ceil acc - 1 := by
    exact_mod_cast Int.ceil_sub_int acc 1
  omega

/-- One accumulator tick at a constant rate: add rate times the
normalised delta, then emit whole particles via the drain loop. -/
def emitTick (rate acc dt : ℚ) : ℚ × ℕ :=
  drain (acc + rate * (dt / frameMs))

/-- Run the accumulator over a sequence of tick deltas, totalling the
emitted particles. -/
def emitRun (rate : ℚ) (acc : ℚ) : List ℚ → ℚ × ℕ
  | [] => (acc, 0)
  | dt :: dts =>
    let r := emitTick rate acc dt
    let s := emitRun rate r.1 dts
    (s.1, r.2 + s.2)

theorem emitRun_spec (rate : ℚ) (hrate : 0 ≤ rate) :
    ∀ (dts : List ℚ) (acc : ℚ), 0 ≤ acc → acc < 1 →
      (∀ dt ∈ dts, 0 ≤ dt) →
      ((emitRun rate acc dts).2 : ℚ) + (emitRun rate acc dts).1 =
          acc + rate * (dts.sum / frameMs) ∧
        0 ≤ (emitRun rate acc dts).1 ∧ (emitRun rate acc dts).1 < 1 := by
  intro dts
  induction dts with
  | nil =>
    intro acc h0 h1 _
    simpa [emitRun] using ⟨h0, h1⟩
  | cons dt dts ih =>
    intro acc h0 h1 hdts
    have hdt : 0 ≤ dt := hdts dt (List.mem_cons_self dt dts)
    have hframe : (0 : ℚ) < frameMs := by norm_num [frameMs]
    have hacc : 0 ≤ acc + rate * (dt / frameMs) := by
      have : 0 ≤ rate * (dt / frameMs) :=
        mul_nonneg hrate (div_nonneg hdt (le_of_lt hframe))
      linarith
    have hd := drain_spec (acc + rate * (dt / frameMs)) hacc
    have hrest := ih (emitTick rate acc dt).1 hd.2.1 hd.2.2
      (fun x hx => hdts x (List.mem_cons_of_mem dt hx))
    refine ⟨?_, hrest.2.1, hrest.2.2⟩
    have e1 : ((emitTick rate acc dt).2 : ℚ) + (emitTick rate acc dt).1 =
        acc + rate * (dt / frameMs) := hd.1
    have e2 : ((emitRun rate (emitTick rate acc dt).1 dts).2 : ℚ) +
        (emitRun rate (emitTick rate acc dt).1 dts).1 =
        (emitTick rate acc dt).1 + rate * (dts.sum / frameMs) := hrest.1
    show (((emitTick rate acc dt).2 + (emitRun rate (emitTick rate acc dt).1 dts).2 : ℕ) : ℚ) +
        (emitRun rate (emitTick rate acc dt).1 dts).1 =
        acc + rate * ((dt :: dts).sum / frameMs)
    push_cast
    rw [List.sum_cons]
    have expand : rate * ((dt + dts.sum) / frameMs) =
        rate * (dt / frameMs) + rate * (dts.sum / frameMs) := by
      field_simp
      ring
    rw [expand]
    linarith

/-- Per-campfire engine state held across ticks by useCampfireParticles:
the previous burning flag, the lingering-smoke deadline (if any), and the
fractional emission accumulators of the three fire zones, the smoke
channel and the smoke-burst channel. -/
structure CampfireState where
  prevBurning : Bool
  lingerUntil : Option ℚ
  fireAccTop : ℚ
  fireAccMiddle : ℚ
  fireAccBase : ℚ
  smokeAcc : ℚ
  burstAcc : ℚ
deriving DecidableEq

/-- The engine-tick input for one campfire: the wall-clock time, the
measured delta, and the campfire record flags read that tick. -/
structure Tick where
  now : ℚ
  dt : ℚ
  isBurning : Bool
  hot : Bool
deriving DecidableEq

/-- The outcome of processing one campfire on one engine tick: the new
per-campfire state and the number of fire, smoke and smoke-burst
particles pushed that tick. -/
structure TickResult where
  state : CampfireState
  fireCount : ℕ
  smokeCount : ℕ
  burstCount : ℕ
deriving DecidableEq

/-- One engine tick for one visible campfire, following
useCampfireParticles.ts: linger bookkeeping on the burning flag
transition, then the per-zone fire accumulators, the smoke accumulator
(driven by burning or by an unexpired linger deadline) and the
smoke-burst accumulator (driven by the hot-zone flag while burning);
disabled channels have their accumulators reset to zero. -/
def campfireStep (s : CampfireState) (t : Tick) : TickResult :=
  let dtf := t.dt / frameMs
  let linger0 : Option ℚ :=
    if t.isBurning then none
    else if s.prevBurning then some (t.now + smokeLingerDurationMs)
    else s.lingerUntil
  let generateFire := t.isBurning
  let generateSmoke :=
    t.isBurning ||
      (match linger0 with
       | some u => decide (t.now < u)
       | none => false)
  let linger1 : Option ℚ :=
    match linger0 with
    | some u => if t.now < u then some u else none
    | none => none
  let fireTop := if generateFire then drain (s.fireAccTop + fireRateTop * dtf) else (0, 0)
  let fireMiddle := if generateFire then drain (s.fireAccMiddle + fireRateMiddle * dtf) else (0, 0)
  let fireBase := if generateFire then drain (s.fireAccBase + fireRateBase * dtf) else (0, 0)
  let smoke := if generateSmoke then drain (s.smokeAcc + smokeRate * dtf) else (0, 0)
  let burst := if t.hot && t.isBurning then drain (s.burstAcc + burstRate * dtf) else (0, 0)
  { state :=
      { prevBurning := t.isBurning
        lingerUntil := linger1
        fireAccTop := fireTop.1
        fireAccMiddle := fireMiddle.1
        fireAccBase := fireBase.1
        smokeAcc := smoke.1
        burstAcc := burst.1 }
    fireCount := fireTop.2 + fireMiddle.2 + fireBase.2
    smokeCount := smoke.2
    burstCount := burst.2 }

/-- Run the per-campfire engine over a sequence of ticks, accumulating
the particle counts per type. -/
def campfireRun (s : CampfireState) : List Tick → TickResult
  | [] => ⟨s, 0, 0, 0⟩
  | t :: ts =>
    let r := campfireStep s t
    let rest := campfireRun r.state ts
    ⟨rest.state, r.fireCount + rest.fireCount, r.smokeCount + rest.smokeCount,
      r.burstCount + rest.burstCount⟩

theorem campfireStep_burst_off (s : CampfireState) (t : Tick)
    (h : t.hot = false ∨ t.isBurning = false) :
    (campfireStep s t).burstCount = 0 ∧
      (campfireStep s t).state.burstAcc = 0 := by
  rcases h with h | h
  · simp [campfireStep, h]
  · simp [campfireStep, h]

theorem campfireRun_burst_off (s : CampfireState) (ts : List Tick)
    (h : ∀ t ∈ ts, t.hot = false ∨ t.isBurning = false) :
    (campfireRun s ts).burstCount = 0 := by
  induction ts generalizing s with
  | nil => rfl
  | cons t ts ih =>
    have ht := campfireStep_burst_off s t (h t (List.mem_cons_self t ts))
    show (campfireStep s t).burstCount +
        (campfireRun (campfireStep s t).state ts).burstCount = 0
    rw [ht.1, ih (campfireStep s t).state
      (fun x hx => h x (List.mem_cons_of_mem t hx))]

theorem campfireRun_smoke_off (s : CampfireState) (ts : List Tick)
    (hprev : s.prevBurning = false) (hling : s.lingerUntil = none)
    (h : ∀ t ∈ ts, t.isBurning = false) : (campfireRun s ts).smokeCount = 0 := by
  induction ts generalizing s with
  | nil => rfl
  | cons t ts ih =>
    have ht : t.isBurning = false := h t (List.mem_cons_self t ts)
    have hstep : (campfireStep s t).smokeCount = 0 ∧
        (campfireStep s t).state.prevBurning = false ∧
        (campfireStep s t).state.lingerUntil = none := by
      simp [campfireStep, ht, hprev, hling]
    show (campfireStep s t).smokeCount +
        (campfireRun (campfireStep s t).state ts).smokeCount = 0
    rw [hstep.1, ih (campfireStep s t).state hstep.2.1 hstep.2.2
      (fun x hx => h x (List.mem_cons_of_mem t hx))]

/-- JUMP_DURATION_MS from gameConfig.ts. -/
def jumpDurationMs : ℚ := 400

/-- JUMP_HEIGHT_PX from gameConfig.ts. -/
def jumpHeightPx : ℚ := 40

/-- The closed-form jump parabola of renderYSortedEntities:
(-4h/d^2) * x * (x - d) at elapsed time x. -/
def jumpParabola (x : ℚ) : ℚ :=
  -4 * jumpHeightPx / (jumpDurationMs * jumpDurationMs) * x * (x - jumpDurationMs)

/-- The jump offset actually applied for a player at wall-clock time
nowMs: the parabola while a started jump is strictly within its
duration, 0 otherwise (the jump branch is not taken). -/
def jumpOffsetAt (nowMs start : ℚ) : ℚ :=
  if 0 < start then
    if nowMs - start < jumpDurationMs then jumpParabola (nowMs - start) else 0
  else 0

/-- The player hover hit-test radius: half the 48px sprite width. -/
def playerRadius : ℚ := 24

/-- isPlayerHovered from renderingUtils: false when either mouse
coordinate is null, otherwise a strict circular-radius test around the
player's center. -/
def isPlayerHoveredAt (mx my : Option ℚ) (px py : ℚ) : Bool :=
  match mx, my with
  | some x, some y =>
    decide ((x - px) * (x - px) + (y - py) * (y - py) < playerRadius * playerRadius)
  | _, _ => false

/-- The hover-change dispatch of renderYSortedEntities: `some v` means
the onPlayerHover callback is invoked with new state v, `none` means it
is not invoked. Fires when both mouse coordinates are present and the
current hover test disagrees with the persisted hover state, or when
both coordinates are null while the player is persisted as hovered (then
always with value false). -/
def hoverDispatch (mx my : Option ℚ) (persisted : Bool) (px py : ℚ) :
    Option Bool :=
  let cur := isPlayerHoveredAt mx my px py
  if (mx.isSome && my.isSome && (cur != persisted)) ||
      (mx.isNone && my.isNone && persisted) then
    some (if mx.isNone || my.isNone then false else cur)
  else none

/-- The death-pose rotation renderPlayer applies to the sprite, in
quarter turns: -1 (a -90 degree rotation) for a dead player facing up or
right, +1 (+90 degrees) for a dead player facing down, left or anything
else, and 0 for a living player (the rotation branch is not taken). -/
def renderPlayerQuarterTurns (p : Entity) : ℤ :=
  if p.isDead.getD false then
    if p.direction.getD "" = "up" || p.direction.getD "" = "right" then -1 else 1
  else 0

/-- C1 counterexample: the claim says no record satisfies both
isWoodenStorageBox and isSleepingBag, but a concrete sleeping-bag record
(posX, posY, placedBy present; isBurning and slot_instance_id_0 absent)
satisfies both predicates, because the box guard does not exclude the
sleeping-bag shape. -/
theorem c1_box_bag_overlap :
    isWoodenStorageBox (mkSleepingBag 1 10 20 "alice") = true ∧
      isSleepingBag (mkSleepingBag 1 10 20 "alice") = true :=
  ⟨rfl, rfl⟩

/-- C1 (amended): on well-formed records of the nine kinds, at most one
kind predicate matches, except for two pairs: a Mushroom or Corn record
matches both isMushroom and isCorn (resolved by the upstream
discriminator tag), and a SleepingBag record matches both
isWoodenStorageBox and isSleepingBag. The guard vector lists the nine
predicates in the order Player, Tree, Stone, Campfire, Mushroom, Corn,
DroppedItem, WoodenStorageBox, SleepingBag. -/
theorem c1_guard_matrix :
    ∀ (ident kind owner dir : String) (x y hp jump : ℚ)
      (n defId slot0 : ℕ) (dead burning hot : Bool) (resp : Option ℚ),
      guardVector (mkPlayer ident x y dead dir jump hp) =
        [true, false, false, false, false, false, false, false, false] ∧
      guardVector (mkTree n x y kind hp) =
        [false, true, false, false, false, false, false, false, false] ∧
      guardVector (mkStone n x y hp) =
        [false, false, true, false, false, false, false, false, false] ∧
      guardVector (mkCampfire n x y owner burning hot) =
        [false, false, false, true, false, false, false, false, false] ∧
      guardVector (mkMushroom n x y resp) =
        [false, false, false, false, true, true, false, false, false] ∧
      guardVector (mkCorn n x y resp) =
        [false, false, false, false, true, true, false, false, false] ∧
      guardVector (mkDroppedItem n x y defId) =
        [false, false, false, false, false, false, true, false, false] ∧
      guardVector (mkWoodenStorageBox n x y owner slot0) =
        [false, false, false, false, false, false, false, true, false] ∧
      guardVector (mkSleepingBag n x y owner) =
        [false, false, false, false, false, false, false, true, true] := by
  intro ident kind owner dir x y hp jump n defId slot0 dead burning hot resp
  exact ⟨rfl, rfl, rfl, rfl, rfl, rfl, rfl, rfl, rfl⟩

/-- C2 counterexample: the claim says an entity whose center lies
exactly on a boundary edge is excluded, but a player centered exactly on
the left boundary of the viewport (positionX = viewMinX) is reported in
view, since its half-width box still strictly overlaps the bounds. -/
theorem c2_center_on_edge_included :
    (mkPlayer "p" (-96) 100 false "down" 0 100).positionX =
        some (getViewportBounds 0 0 800 600).viewMinX ∧
      isEntityInView (mkPlayer "p" (-96) 100 false "down" 0 100)
        (getViewportBounds 0 0 800 600) = true := by
  constructor
  · norm_num [mkPlayer, getViewportBounds, tileSize]
  · norm_num [mkPlayer, getViewportBounds, tileSize, isEntityInView, resolveView,
      isPlayer, isTree, isStone, isCampfire, isMushroom, isCorn, isDroppedItem,
      isWoodenStorageBox, isSleepingBag, aabbOverlap]

/-- C2 (amended): isEntityInView returns true iff the bounding box
resolved by the guard-branch order strictly overlaps the bounds
rectangle on both axes (entityMax > boundsMin and entityMin < boundsMax);
a box exactly touching the bounds edge is excluded, while an entity
centered on a boundary edge is included. The box is the resolved one,
not always the nominal per-kind one: a corn-shaped record resolves
through the earlier mushroom branch to a 32-by-32 box, and a
sleeping-bag-shaped record resolves through the earlier storage-box
branch to a 64-by-64 box. -/
theorem c2_in_view_iff :
    (∀ (e : Entity) (b : ViewportBounds) (x y w h : ℚ),
      resolveView e = some (some x, some y, w, h) →
      (isEntityInView e b = true ↔
        (b.viewMinX < x + w / 2 ∧ x - w / 2 < b.viewMaxX ∧
          b.viewMinY < y + h / 2 ∧ y - h / 2 < b.viewMaxY))) ∧
    (∀ (n : ℕ) (x y : ℚ) (resp : Option ℚ),
      resolveView (mkCorn n x y resp) = some (some x, some y, 32, 32)) ∧
    (∀ (n : ℕ) (x y : ℚ) (owner : String),
      resolveView (mkSleepingBag n x y owner) = some (some x, some y, 64, 64)) := by
  refine ⟨?_, ?_, ?_⟩
  · intro e b x y w h hres
    rw [isEntityInView, hres]
    simp [aabbOverlap, and_assoc, gt_iff_lt]
  · intro n x y resp
    rfl
  · intro n x y owner
    rfl

/-- C2 witness: the characterisation applied to a concrete mushroom
record and concrete bounds. -/
theorem c2_in_view_iff_witness :
    resolveView (mkMushroom 1 100 100 none) =
        some (some 100, some 100, 32, 32) ∧
      (isEntityInView (mkMushroom 1 100 100 none) (getViewportBounds 0 0 800 600) = true ↔
        ((getViewportBounds 0 0 800 600).viewMinX < 100 + 32 / 2 ∧
          100 - 32 / 2 < (getViewportBounds 0 0 800 600).viewMaxX ∧
          (getViewportBounds 0 0 800 600).viewMinY < 100 + 32 / 2 ∧
          100 - 32 / 2 < (getViewportBounds 0 0 800 600).viewMaxY)) :=
  ⟨rfl, c2_in_view_iff.1 (mkMushroom 1 100 100 none) (getViewportBounds 0 0 800 600)
    100 100 32 32 rfl⟩

/-- C3 counterexample: in a scene whose only entity is one visible
mushroom, the hook reports the mushroom visible, yet the ground-layer
paint group it builds (from dropped items, campfires and sleeping bags
only) is empty — so the ground group does not contain every visible
entity of the five flat kinds. -/
theorem c3_ground_layer_misses_kinds :
    visibleMushroomsHook [mkMushroom 1 100 100 none] (getViewportBounds 0 0 800 600) =
        [mkMushroom 1 100 100 none] ∧
      groundItemsHook [] [] [] (getViewportBounds 0 0 800 600) = [] := by
  constructor
  · norm_num [visibleMushroomsHook, mkMushroom, getViewportBounds, tileSize,
      isEntityInView, resolveView, isPlayer, isTree, isStone, isCampfire, isMushroom,
      isCorn, isDroppedItem, isWoodenStorageBox, isSleepingBag, aabbOverlap,
      List.filter]
  · rfl

/-- C3 (amended): the hook's ground group contains exactly the visible
dropped items, campfires and sleeping bags (mushrooms and corn are
omitted); the GameCanvas ground group contains exactly the visible
mushrooms, corn, dropped items and campfires (sleeping bags are
omitted); and both Y-sorted groups contain exactly the visible players,
trees, stones and storage boxes. -/
theorem c3_layer_membership :
    (∀ (d c g : List Entity) (b : ViewportBounds) (e : Entity),
      e ∈ groundItemsHook d c g b ↔
        e ∈ visibleDroppedItemsHook d b ∨ e ∈ visibleCampfiresHook c b ∨
          e ∈ visibleSleepingBagsHook g b) ∧
    (∀ (m cn d c : List Entity) (b : ViewportBounds) (e : Entity),
      e ∈ groundItemsGC m cn d c b ↔
        e ∈ visibleMushroomsGC m b ∨ e ∈ visibleCornsGC cn b ∨
          e ∈ visibleDroppedItemsGC d b ∨ e ∈ visibleCampfiresGC c b) ∧
    (∀ (ps ts ss bs : List Entity) (b : ViewportBounds) (e : Entity),
      e ∈ ySortedEntitiesHook ps ts ss bs b ↔
        e ∈ visiblePlayersHook ps b ∨ e ∈ visibleTreesHook ts b ∨
          e ∈ (visibleStonesHook ss b).filter (fun x => decide (0 < x.health.getD 0)) ∨
          e ∈ visibleWoodenStorageBoxesHook bs b) ∧
    (∀ (ps ts ss bs : List Entity) (b : ViewportBounds) (e : Entity),
      e ∈ ySortedEntitiesGC ps ts ss bs b ↔
        e ∈ visiblePlayersGC ps b ∨ e ∈ visibleTreesGC ts b ∨
          e ∈ visibleStonesGC ss b ∨ e ∈ visibleWoodenStorageBoxesGC bs b) := by
  refine ⟨?_, ?_, ?_, ?_⟩
  · intro d c g b e
    simp [groundItemsHook, List.mem_append, or_assoc]
  · intro m cn d c b e
    simp [groundItemsGC, List.mem_append, or_assoc]
  · intro ps ts ss bs b e
    simp [ySortedEntitiesHook, mem_sortByY, List.mem_append, or_assoc]
  · intro ps ts ss bs b e
    simp [ySortedEntitiesGC, mem_sortByY, List.mem_append, or_assoc]

/-- C4: for every nonnegative constant rate and sequence of positive
tick deltas, the fractional accumulator (starting at 0) emits a total
number of particles within one of rate times the 60fps-normalised total
time, and the carried remainder stays in the interval from 0 (inclusive)
to 1 (exclusive) after every run. -/
theorem c4_emission_within_one (rate : ℚ) (hrate : 0 ≤ rate) (dts : List ℚ)
    (hdts : ∀ dt ∈ dts, 0 < dt) :
    |((emitRun rate 0 dts).2 : ℚ) - rate * (dts.sum / frameMs)| ≤ 1 ∧
      0 ≤ (emitRun rate 0 dts).1 ∧ (emitRun rate 0 dts).1 < 1 := by
  have h := emitRun_spec rate hrate dts 0 le_rfl zero_lt_one
    (fun dt hdt => le_of_lt (hdts dt hdt))
  refine ⟨?_, h.2.1, h.2.2⟩
  have heq : ((emitRun rate 0 dts).2 : ℚ) - rate * (dts.sum / frameMs) =
      -(emitRun rate 0 dts).1 := by
    have := h.1
    linarith
  rw [heq, abs_neg, abs_of_nonneg h.2.1]
  linarith [h.2.2]

/-- C4 witness: the bound applied to the smoke rate 0.8 example over 60
steady frame-length ticks. -/
theorem c4_emission_within_one_witness :
    (0 : ℚ) ≤ 4 / 5 ∧ (∀ dt ∈ List.replicate 60 frameMs, (0 : ℚ) < dt) ∧
      (|((emitRun (4 / 5) 0 (List.replicate 60 frameMs)).2 : ℚ) -
          4 / 5 * ((List.replicate 60 frameMs).sum / frameMs)| ≤ 1 ∧
        0 ≤ (emitRun (4 / 5) 0 (List.replicate 60 frameMs)).1 ∧
        (emitRun (4 / 5) 0 (List.replicate 60 frameMs)).1 < 1) := by
  have hpos : ∀ dt ∈ List.replicate 60 frameMs, (0 : ℚ) < dt := by
    intro dt hdt
    rw [List.eq_of_mem_replicate hdt]
    norm_num [frameMs]
  exact ⟨by norm_num, hpos,
    c4_emission_within_one (4 / 5) (by norm_num) (List.replicate 60 frameMs) hpos⟩

/-- C5: lingering smoke. On the burning-to-not-burning transition the
engine records the deadline now + 4000ms and keeps the smoke channel
running (no fire, no burst); on later non-burning ticks strictly before
the deadline the record is kept and smoke still runs at the normal rate
with zero fire and burst particles; at or after the deadline the record
is deleted and zero smoke particles are emitted; once the record is gone
a whole non-burning run emits zero smoke; and a tick with the campfire
burning again deletes the linger record. -/
theorem c5_linger_smoke :
    (∀ (s : CampfireState) (t : Tick), t.isBurning = false → s.prevBurning = true →
      (campfireStep s t).state.lingerUntil = some (t.now + smokeLingerDurationMs) ∧
      (campfireStep s t).state.prevBurning = false ∧
      (campfireStep s t).fireCount = 0 ∧ (campfireStep s t).burstCount = 0 ∧
      (campfireStep s t).smokeCount = (drain (s.smokeAcc + smokeRate * (t.dt / frameMs))).2) ∧
    (∀ (s : CampfireState) (t : Tick) (u : ℚ), t.isBurning = false →
      s.prevBurning = false → s.lingerUntil = some u → t.now < u →
      (campfireStep s t).state.lingerUntil = some u ∧
      (campfireStep s t).state.prevBurning = false ∧
      (campfireStep s t).fireCount = 0 ∧ (campfireStep s t).burstCount = 0 ∧
      (campfireStep s t).smokeCount = (drain (s.smokeAcc + smokeRate * (t.dt / frameMs))).2) ∧
    (∀ (s : CampfireState) (t : Tick) (u : ℚ), t.isBurning = false →
      s.prevBurning = false → s.lingerUntil = some u → u ≤ t.now →
      (campfireStep s t).smokeCount = 0 ∧
      (campfireStep s t).state.lingerUntil = none) ∧
    (∀ (s : CampfireState) (ts : List Tick), s.prevBurning = false →
      s.lingerUntil = none → (∀ t ∈ ts, t.isBurning = false) →
      (campfireRun s ts).smokeCount = 0) ∧
    (∀ (s : CampfireState) (t : Tick), t.isBurning = true →
      (campfireStep s t).state.lingerUntil = none) := by
  refine ⟨?_, ?_, ?_, campfireRun_smoke_off, ?_⟩
  · intro s t hb hp
    have hlt : t.now < t.now + smokeLingerDurationMs := by
      norm_num [smokeLingerDurationMs]
    simp [campfireStep, hb, hp, hlt]
  · intro s t u hb hp hl hlt
    simp [campfireStep, hb, hp, hl, hlt]
  · intro s t u hb hp hl hge
    have hnlt : ¬ t.now < u := not_lt_of_le hge
    simp [campfireStep, hb, hp, hl, hnlt]
  · intro s t hb
    simp [campfireStep, hb]

/-- C5 witness: the linger parts applied at concrete states and ticks
(transition at time 1000 recording deadline 5000, a linger tick at 2000,
an expiry tick at 6000, an all-off run, and a re-ignition). -/
theorem c5_linger_smoke_witness :
    ((⟨1000, frameMs, false, false⟩ : Tick).isBurning = false ∧
      (⟨true, none, 0, 0, 0, 0, 0⟩ : CampfireState).prevBurning = true ∧
      (campfireStep ⟨true, none, 0, 0, 0, 0, 0⟩ ⟨1000, frameMs, false, false⟩).state.lingerUntil =
        some (1000 + smokeLingerDurationMs)) ∧
    ((2000 : ℚ) < 5000 ∧
      (campfireStep ⟨false, some 5000, 0, 0, 0, 0, 0⟩ ⟨2000, frameMs, false, false⟩).state.lingerUntil =
        some 5000) ∧
    ((5000 : ℚ) ≤ 6000 ∧
      (campfireStep ⟨false, some 5000, 0, 0, 0, 0, 0⟩ ⟨6000, frameMs, false, false⟩).smokeCount = 0) ∧
    (campfireRun ⟨false, none, 0, 0, 0, 0, 0⟩ [⟨7000, frameMs, false, false⟩]).smokeCount = 0 ∧
    (campfireStep ⟨false, some 5000, 0, 0, 0, 0, 0⟩ ⟨3000, frameMs, true, false⟩).state.lingerUntil =
      none := by
  refine ⟨⟨rfl, rfl, ?_⟩, ⟨by norm_num, ?_⟩, ⟨by norm_num, ?_⟩, ?_, ?_⟩
  · exact (c5_linger_smoke.1 ⟨true, none, 0, 0, 0, 0, 0⟩ ⟨1000, frameMs, false, false⟩ rfl rfl).1
  · exact (c5_linger_smoke.2.1 ⟨false, some 5000, 0, 0, 0, 0, 0⟩
      ⟨2000, frameMs, false, false⟩ 5000 rfl rfl rfl (by norm_num)).1
  · exact (c5_linger_smoke.2.2.1 ⟨false, some 5000, 0, 0, 0, 0, 0⟩
      ⟨6000, frameMs, false, false⟩ 5000 rfl rfl rfl (by norm_num)).1
  · refine c5_linger_smoke.2.2.2.1 ⟨false, none, 0, 0, 0, 0, 0⟩
      [⟨7000, frameMs, false, false⟩] rfl rfl ?_
    intro t ht
    rw [List.mem_singleton] at ht
    rw [ht]
  · exact c5_linger_smoke.2.2.2.2 ⟨false, some 5000, 0, 0, 0, 0, 0⟩
      ⟨3000, frameMs, true, false⟩ rfl

/-- C6: smoke-burst particles are generated only at ticks where both
isPlayerInHotZone and isBurning are true: on any tick where either flag
is false the burst count is zero and the burst accumulator is reset, so
any simulation in which no tick has both flags true (in particular a
burning campfire with no player in its hot zone, for any duration, or a
player standing in the hot zone of an extinguished, still-lingering
campfire) emits zero smoke-burst particles in total. -/
theorem c6_no_smoke_burst :
    (∀ (s : CampfireState) (t : Tick), t.hot = false ∨ t.isBurning = false →
      (campfireStep s t).burstCount = 0 ∧ (campfireStep s t).state.burstAcc = 0) ∧
    (∀ (s : CampfireState) (ts : List Tick),
      (∀ t ∈ ts, t.hot = false ∨ t.isBurning = false) →
      (campfireRun s ts).burstCount = 0) :=
  ⟨campfireStep_burst_off, campfireRun_burst_off⟩

/-- C6 witness: a two-tick run — first a burning campfire with no player
in the hot zone, then an extinguished campfire with a player standing in
the hot zone — emits zero smoke-burst particles. -/
theorem c6_no_smoke_burst_witness :
    (∀ t ∈ ([⟨0, frameMs, true, false⟩, ⟨100, frameMs, false, true⟩] : List Tick),
      t.hot = false ∨ t.isBurning = false) ∧
      (campfireRun ⟨true, none, 0, 0, 0, 0, 0⟩
        [⟨0, frameMs, true, false⟩, ⟨100, frameMs, false, true⟩]).burstCount = 0 := by
  have hcond : ∀ t ∈ ([⟨0, frameMs, true, false⟩, ⟨100, frameMs, false, true⟩] : List Tick),
      t.hot = false ∨ t.isBurning = false := by
    intro t ht
    rcases List.mem_cons.mp ht with rfl | ht
    · exact Or.inl rfl
    · rw [List.mem_singleton] at ht
      rw [ht]
      exact Or.inr rfl
  exact ⟨hcond, c6_no_smoke_burst.2 ⟨true, none, 0, 0, 0, 0, 0⟩ _ hcond⟩

/-- C7: the jump parabola (-4h/d^2) * x * (x - d) with d = 400 and
h = 40 is 0 at elapsed time 0, 0 at elapsed time d, exactly h at the
midpoint d/2; and at elapsed time equal to the duration the jump branch
is not taken, so the applied offset is 0. -/
theorem c7_jump_offset :
    jumpParabola 0 = 0 ∧ jumpParabola jumpDurationMs = 0 ∧
      jumpParabola (jumpDurationMs / 2) = jumpHeightPx ∧
      (∀ start nowMs : ℚ, 0 < start → nowMs - start = jumpDurationMs →
        jumpOffsetAt nowMs start = 0) := by
  refine ⟨?_, ?_, ?_, ?_⟩
  · norm_num [jumpParabola]
  · norm_num [jumpParabola]
  · norm_num [jumpParabola, jumpDurationMs, jumpHeightPx]
  · intro start nowMs h0 hd
    rw [jumpOffsetAt, if_pos h0, hd, if_neg (lt_irrefl jumpDurationMs)]

/-- C7 witness: the branch-not-taken part applied to a jump started at
time 1 evaluated at time 401. -/
theorem c7_jump_offset_witness :
    (0 : ℚ) < 1 ∧ (401 : ℚ) - 1 = jumpDurationMs ∧ jumpOffsetAt 401 1 = 0 :=
  ⟨by norm_num, by norm_num [jumpDurationMs],
    c7_jump_offset.2.2.2 1 401 (by norm_num) (by norm_num [jumpDurationMs])⟩

/-- C8: the Y-sorted layer is the stable sort of the visible players,
trees, stones and boxes by the kind-polymorphic Y key (positionY for
player records, posY otherwise); the sort output is ascending in that
key, stable (for every key value the elements carrying it keep their
relative input order), and idempotent, so repeated invocations on an
unchanged input produce the identical ordering. -/
theorem c8_ysort_stable :
    (∀ l : List Entity, (sortByY l).Pairwise (fun a c => yKey a ≤ yKey c)) ∧
    (∀ (l : List Entity) (k : ℚ),
      (sortByY l).filter (fun e => decide (yKey e = k)) =
        l.filter (fun e => decide (yKey e = k))) ∧
    (∀ l : List Entity, sortByY (sortByY l) = sortByY l) ∧
    (∀ (ps ts ss bs : List Entity) (b : ViewportBounds),
      ySortedEntitiesGC ps ts ss bs b =
        sortByY (visiblePlayersGC ps b ++ visibleTreesGC ts b ++
          visibleStonesGC ss b ++ visibleWoodenStorageBoxesGC bs b)) :=
  ⟨pairwise_sortByY, sortByY_stable, sortByY_idem, fun _ _ _ _ _ => rfl⟩

/-- C9: the hover-change callback of renderYSortedEntities fires exactly
when both mouse coordinates are present and the circular hover test
disagrees with the persisted hover state (reporting the new test
result), or when both coordinates are null while the player is persisted
as hovered (reporting not-hovered); whenever it fires, the reported
value differs from the persisted state, so it never fires with the state
unchanged. -/
theorem c9_hover_dispatch :
    ∀ (mx my : Option ℚ) (persisted : Bool) (px py : ℚ),
      (∀ v : Bool, hoverDispatch mx my persisted px py = some v ↔
        ((mx.isSome = true ∧ my.isSome = true ∧
            isPlayerHoveredAt mx my px py ≠ persisted ∧
            v = isPlayerHoveredAt mx my px py) ∨
          (mx = none ∧ my = none ∧ persisted = true ∧ v = false))) ∧
      (∀ v : Bool, hoverDispatch mx my persisted px py = some v → v ≠ persisted) := by
  intro mx my persisted px py
  constructor
  · intro v
    cases mx with
    | none =>
      cases my with
      | none => cases persisted <;> simp [hoverDispatch, isPlayerHoveredAt, eq_comm]
      | some y => cases persisted <;> simp [hoverDispatch, isPlayerHoveredAt]
    | some x =>
      cases my with
      | none => cases persisted <;> simp [hoverDispatch, isPlayerHoveredAt]
      | some y =>
        cases hc : isPlayerHoveredAt (some x) (some y) px py <;>
          cases persisted <;> simp [hoverDispatch, hc]
  · intro v hv
    cases mx with
    | none =>
      cases my with
      | none =>
        cases persisted
        · simp [hoverDispatch] at hv
        · simp [hoverDispatch] at hv
          simp [hv]
      | some y => cases persisted <;> simp [hoverDispatch] at hv
    | some x =>
      cases my with
      | none => cases persisted <;> simp [hoverDispatch] at hv
      | some y =>
        cases hc : isPlayerHoveredAt (some x) (some y) px py <;>
          cases persisted <;> simp [hoverDispatch, hc] at hv <;> simp [hv]

/-- C9 witness: with both mouse coordinates null and the player
persisted as hovered, the callback fires with not-hovered, and the
reported value differs from the persisted state. -/
theorem c9_hover_dispatch_witness :
    hoverDispatch none none true 0 0 = some false ∧ (false : Bool) ≠ true := by
  have h := ((c9_hover_dispatch none none true 0 0).1 false).mpr
    (Or.inr ⟨rfl, rfl, rfl, rfl⟩)
  exact ⟨h, (c9_hover_dispatch none none true 0 0).2 false h⟩

/-- C10: GameCanvas filters dead players out of visiblePlayers before
rendering, so every player in visiblePlayers has isDead false and zero
death-pose rotation, and (when the tree, stone and box inputs contain no
player-shaped records) every entity of the Y-sorted group matching the
player guard has isDead false and zero death-pose rotation: the 90
degree death branch of renderPlayer is never reached through this
path. -/
theorem c10_no_dead_players :
    ∀ (ps ts ss bs : List Entity) (b : ViewportBounds),
      (∀ p ∈ visiblePlayersGC ps b,
        p.isDead.getD false = false ∧ renderPlayerQuarterTurns p = 0) ∧
      ((∀ x ∈ ts, isPlayer x = false) → (∀ x ∈ ss, isPlayer x = false) →
        (∀ x ∈ bs, isPlayer x = false) →
        ∀ e ∈ ySortedEntitiesGC ps ts ss bs b, isPlayer e = true →
          e.isDead.getD false = false ∧ renderPlayerQuarterTurns e = 0) := by
  intro ps ts ss bs b
  have hvis : ∀ p ∈ visiblePlayersGC ps b,
      p.isDead.getD false = false ∧ renderPlayerQuarterTurns p = 0 := by
    intro p hp
    rw [visiblePlayersGC, List.mem_filter] at hp
    have hdead : p.isDead.getD false = false := by
      have h2 := hp.2
      simp only [Bool.and_eq_true, Bool.not_eq_true'] at h2
      exact h2.1
    exact ⟨hdead, by simp [renderPlayerQuarterTurns, hdead]⟩
  refine ⟨hvis, ?_⟩
  intro hts hss hbs e he hpl
  rw [ySortedEntitiesGC, mem_sortByY] at he
  rcases List.mem_append.mp he with he | hbx
  · rcases List.mem_append.mp he with he | hst
    · rcases List.mem_append.mp he with hpv | htr
      · exact hvis e hpv
      · exfalso
        rw [visibleTreesGC, List.mem_filter] at htr
        rw [hts e htr.1] at hpl
        exact Bool.false_ne_true hpl
    · exfalso
      rw [visibleStonesGC, List.mem_filter] at hst
      rw [hss e hst.1] at hpl
      exact Bool.false_ne_true hpl
  · exfalso
    rw [visibleWoodenStorageBoxesGC, List.mem_filter] at hbx
    rw [hbs e hbx.1] at hpl
    exact Bool.false_ne_true hpl

/-- C10 witness: a scene with one living in-view player and nothing
else. -/
theorem c10_no_dead_players_witness :
    mkPlayer "p" 100 100 false "down" 0 100 ∈
        visiblePlayersGC [mkPlayer "p" 100 100 false "down" 0 100]
          (getViewportBounds 0 0 800 600) ∧
      (mkPlayer "p" 100 100 false "down" 0 100).isDead.getD false = false ∧
      renderPlayerQuarterTurns (mkPlayer "p" 100 100 false "down" 0 100) = 0 := by
  have hmem : mkPlayer "p" 100 100 false "down" 0 100 ∈
      visiblePlayersGC [mkPlayer "p" 100 100 false "down" 0 100]
        (getViewportBounds 0 0 800 600) := by
    have heval : visiblePlayersGC [mkPlayer "p" 100 100 false "down" 0 100]
        (getViewportBounds 0 0 800 600) = [mkPlayer "p" 100 100 false "down" 0 100] := by
      norm_num [visiblePlayersGC, mkPlayer, getViewportBounds, tileSize,
        isEntityInViewGC, resolveViewGC, isPlayer, isTree, isStone, isCampfire,
        isMushroom, isCorn, isDroppedItem, isWoodenStorageBox, aabbOverlap,
        List.filter]
    rw [heval]
    exact List.mem_singleton.mpr rfl
  have h := (c10_no_dead_players [mkPlayer "p" 100 100 false "down" 0 100] [] [] []
    (getViewportBounds 0 0 800 600)).1 _ hmem
  exact ⟨hmem, h.1, h.2⟩

end Survival
